import Mathlib

/-!
Verification of the `bocoel` repository core: the bounded nearest-neighbor
index contract (`bocoel/corpora/indices/interfaces/indices.py`), the embedder
encode wrapper (`bocoel/corpora/embedders/interfaces.py`), and the Ax service
optimizer loop (`bocoel/core/optim/ax/optim.py`).

Modelling conventions:
- Python floats appear only as opaque scalars that are compared or passed
  through; they are modelled as `Int` (no float arithmetic is performed by
  the code under study).
- A numpy `NDArray` used as a query is modelled by its rank (`ndim`) together
  with its coordinate list; `Index.search` reads nothing but `ndim` from a
  query whose rank is not 1, because it raises the shape error first, so the
  coordinate list is only meaningful at rank 1.
- Python exceptions are modelled with `Except`: `.error` is a raised
  exception, `.ok` a normal return.
-/

/- ========================= Bounded index contract ========================= -/

/-- Result of the metric-specific routine `Index._search`:
indices (length k) into the embedding matrix and their distances. -/
structure InternalSearchResult where
  indices : List Nat
  distances : List Int
deriving DecidableEq, Repr

/-- The record returned by `Index.search`
(`bocoel/corpora/indices/interfaces/results.py` usage site). -/
structure SearchResult where
  query : List Int
  vectors : List (List Int)
  distances : List Int
  indices : List Nat
deriving DecidableEq, Repr

/-- A numpy query array: its rank and, when the rank is 1, its coordinates.
`Index.search` raises before reading anything but `ndim` when `ndim ≠ 1`. -/
structure Query where
  ndim : Nat
  vec : List Int
deriving DecidableEq, Repr

/-- The `ValueError`s raised by `Index.search`, one constructor per `raise`
site, carrying the data interpolated into the Python message. -/
inductive SearchError where
  | shapeError (ndim : Nat)
  | dimError (expected got : Nat)
  | boundsError
  | kError (k : Int)
deriving DecidableEq, Repr

/-- The Python exception message of each `ValueError` in `Index.search`. -/
def SearchError.message : SearchError → String
  | .shapeError ndim =>
      "Expected query to be a 1D vector, got a vector of dim " ++ toString ndim ++ "."
  | .dimError expected got =>
      "Expected query to have dimension " ++ toString expected ++ ", got " ++ toString got
  | .boundsError =>
      "Query is out of bounds. Call index.lower and index.upper for the boundary."
  | .kError k =>
      "Expected k to be at least 1, got " ++ toString k

/-- The `Index` protocol state: the embedding matrix (list of rows), the
`bounds` array of shape [dims, 2] (row i is the pair (lower_i, upper_i)),
the declared query dimensionality `dims`, and the abstract metric-specific
routine `_search` supplied by each concrete index variant. -/
structure Index where
  embeddings : List (List Int)
  bounds : List (Int × Int)
  dims : Nat
  _search : List Int → Int → InternalSearchResult

/-- `Index.lower`: `self.bounds[:, 0]`. -/
def Index.lower (idx : Index) : List Int := idx.bounds.map Prod.fst

/-- `Index.upper`: `self.bounds[:, 1]`. -/
def Index.upper (idx : Index) : List Int := idx.bounds.map Prod.snd

/-- `Index.in_range`: `all(query >= self.lower) and all(query <= self.upper)`.
Numpy elementwise comparison of equal-length arrays is the pairwise
comparison of the zipped lists (`search` only calls this after checking
`query` has length `dims`, matching the bounds). -/
def Index.in_range (idx : Index) (query : List Int) : Bool :=
  ((query.zip idx.lower).all fun p => decide (p.2 ≤ p.1)) &&
  ((query.zip idx.upper).all fun p => decide (p.1 ≤ p.2))

/-- `Index.search`: the validated public wrapper. Checks, in source order:
rank is 1, length equals `dims`, coordinates in range, `k >= 1`; then
delegates to `_search` and gathers `vectors := self.embeddings[result.indices]`
(numpy fancy indexing of rows, modelled with `List.getD`). -/
def Index.search (idx : Index) (query : Query) (k : Int) :
    Except SearchError SearchResult :=
  if query.ndim ≠ 1 then
    .error (.shapeError query.ndim)
  else if query.vec.length ≠ idx.dims then
    .error (.dimError idx.dims query.vec.length)
  else if !idx.in_range query.vec then
    .error .boundsError
  else if k < 1 then
    .error (.kError k)
  else
    let result := idx._search query.vec k
    let vectors := result.indices.map fun i => idx.embeddings.getD i []
    .ok { query := query.vec
          vectors := vectors
          distances := result.distances
          indices := result.indices }

/- ========================= Embedder contract ========================= -/

/-- A numpy array produced by `Embedder._encode`: its shape and flat data.
Only `shape[-1]` is inspected by the wrapper. -/
structure NDArr where
  shape : List Nat
  data : List Int
deriving DecidableEq, Repr

/-- Exceptions of `Embedder.encode`: `dimMismatch` is the `ValueError`
carrying the expected and actual last dimension; `indexError` models
`shape[-1]` on a rank-0 array. -/
inductive EncodeError where
  | indexError
  | dimMismatch (expected got : Nat)
deriving DecidableEq, Repr

/-- The `Embedder` protocol state: batch size, declared output dimensionality
`dims`, and the abstract concrete encoder `_encode`. -/
structure Embedder where
  batch : Nat
  dims : Nat
  _encode : List String → NDArr

/-- `Embedder.encode`: the validating public wrapper. Computes
`dim := encoded.shape[-1]`, raises the dimension `ValueError` when
`dim != self.dims`, and otherwise returns `encoded` unchanged. -/
def Embedder.encode (e : Embedder) (text : List String) : Except EncodeError NDArr :=
  let encoded := e._encode text
  match encoded.shape.getLast? with
  | none => .error .indexError
  | some dim =>
    if dim ≠ e.dims then .error (.dimMismatch e.dims dim)
    else .ok encoded

/- ========================= Optimizer loop ========================= -/

/-- One generation step of the schedule; `_terminate_step` reads only its
`num_trials` attribute (`-1` meaning unbounded). -/
structure GenerationStep where
  model : String
  num_trials : Int
deriving DecidableEq, Repr

/-- Modelled from the spec: `RemainingSteps`
(`bocoel.core.optim.utils`, not present under the source tree) per §3
"Remaining-Steps Counter" and §4.3: mutable integer count with `-1` as the
never-terminate sentinel; `done` is true iff the count is 0. -/
structure RemainingSteps where
  count : Int
deriving DecidableEq, Repr

/-- Modelled from the spec, §4.3: `done` is true iff count == 0. -/
def RemainingSteps.done (r : RemainingSteps) : Bool := r.count = 0

/-- Modelled from the spec, §4.3: `step()` fails (raises, `none`) if already
done; otherwise decrements the count by 1 unless the count is the unbounded
sentinel `-1`, in which case it is a no-op. -/
def RemainingSteps.step (r : RemainingSteps) : Option RemainingSteps :=
  if r.done then none
  else if r.count = -1 then some r
  else some { count := r.count - 1 }

/-- Modelled from the spec, §3 "Optimization State": the per-trial record
`{query, search result, scalar evaluation}` produced by the (absent)
`optim_utils.evaluate_index`; `AxServiceOptimizer.step` reads only
`evaluation` from it. -/
structure State where
  query : List Int
  result : SearchResult
  evaluation : Int
deriving DecidableEq, Repr

/-- A Python exception raised by the caller-supplied scoring function inside
`AxServiceOptimizer._evaluate`. -/
structure EvalError where
  msg : String
deriving DecidableEq, Repr

/-- The exceptions that `AxServiceOptimizer.step` can surface: the
termination-violation from `RemainingSteps.step`, or a scoring-function
exception propagating out of `_evaluate`. -/
inductive StepError where
  | terminated
  | scoring (e : EvalError)
deriving DecidableEq, Repr

/-- `AxServiceOptimizer` state, generic over the opaque external `AxClient`
state `C` and the trial-parameter payload `P`: the external client, the
remaining-steps counter, and the `_evaluate` closure (the method `_evaluate`
together with the index and scoring function it captures; it raises exactly
when the caller-supplied scoring function raises). -/
structure AxServiceOptimizer (C P : Type) where
  _ax_client : C
  _remaining_steps : RemainingSteps
  _evaluate : P → Except EvalError State

/-- `AxServiceOptimizer._terminate_step`: the sum of all steps' `num_trials`
when each is non-negative, else `-1`. -/
def AxServiceOptimizer._terminate_step (steps : List GenerationStep) : Int :=
  let trials := steps.map fun step => step.num_trials
  if trials.all fun t => decide (0 ≤ t) then trials.sum
  else -1

/-- `AxServiceOptimizer.__init__`: builds the external client from the
generation strategy (opaque, passed in as `client`) and sets
`_remaining_steps = RemainingSteps(self._terminate_step(gen_steps))`. -/
def AxServiceOptimizer.init {C P : Type} (steps : List GenerationStep)
    (client : C) (ev : P → Except EvalError State) : AxServiceOptimizer C P :=
  { _ax_client := client
    _remaining_steps := { count := AxServiceOptimizer._terminate_step steps }
    _evaluate := ev }

/-- `AxServiceOptimizer.terminate`: `self._remaining_steps.done`. -/
def AxServiceOptimizer.terminate {C P : Type} (o : AxServiceOptimizer C P) : Bool :=
  o._remaining_steps.done

/-- `AxServiceOptimizer.step`, with the external `AxClient` methods passed as
functions on the opaque client state: `get_next_trial` returns
`(parameters, trial_index)` plus the mutated client, `complete_trial` takes
the trial index and `float(state.evaluation)`. In source order: advance the
counter (raising if done, client untouched), ask for the next trial, run
`_evaluate` (a scoring exception propagates here, after the counter and
client mutations, and before `complete_trial`), then complete the trial. -/
def AxServiceOptimizer.step {C P : Type}
    (get_next_trial : C → (P × Nat) × C)
    (complete_trial : C → Nat → Int → C)
    (o : AxServiceOptimizer C P) :
    AxServiceOptimizer C P × Except StepError State :=
  match o._remaining_steps.step with
  | none => (o, .error .terminated)
  | some r =>
    let pt := get_next_trial o._ax_client
    let o2 := { o with _remaining_steps := r, _ax_client := pt.2 }
    match o._evaluate pt.1.1 with
    | .error e => (o2, .error (.scoring e))
    | .ok state =>
      ({ o2 with _ax_client := complete_trial pt.2 pt.1.2 state.evaluation },
       .ok state)

/-- The routine selected by `AxServiceOptimizer.render`'s `match` statement
(the visualization routines themselves are external plotting calls). -/
inductive RenderRoutine where
  | interactive
  | static
  | tradeoff
  | cross_validate
  | slice
  | tile
deriving DecidableEq, Repr

/-- The `ValueError("Not supported")` of the wildcard case of `render`. -/
inductive RenderError where
  | notSupported
deriving DecidableEq, Repr

/-- `AxServiceOptimizer.render`'s dispatch: the `match kind` statement, with
Python's first-match case semantics as a chain of string tests; the case
pattern `"cross_validate" | "cv"` accepts either spelling. Returns the
selected routine, or raises at dispatch time without selecting one. -/
def AxServiceOptimizer.render (kind : String) : Except RenderError RenderRoutine :=
  if kind = "interactive" then .ok .interactive
  else if kind = "static" then .ok .static
  else if kind = "tradeoff" then .ok .tradeoff
  else if kind = "cross_validate" || kind = "cv" then .ok .cross_validate
  else if kind = "slice" then .ok .slice
  else if kind = "tile" then .ok .tile
  else .error .notSupported

/- ========================= Concrete instances ========================= -/

/-- A stand-in metric-specific routine for concrete evaluations. -/
def exRoutine : List Int → Int → InternalSearchResult :=
  fun _ _ => { indices := [0], distances := [14] }

/-- The worked example of the spec: a 2-D index of 4 points
(0,0), (1,0), (0,1), (1,1) with bounds [[0,1],[0,1]]. -/
def exIdx : Index :=
  { embeddings := [[0, 0], [1, 0], [0, 1], [1, 1]]
    bounds := [(0, 1), (0, 1)]
    dims := 2
    _search := exRoutine }

/-- Concrete step schedule [5, 10, 15] from the spec's budget example. -/
def wSteps : List GenerationStep :=
  [{ model := "sobol", num_trials := 5 },
   { model := "gpei", num_trials := 10 },
   { model := "gpei", num_trials := 15 }]

/-- Concrete embedder whose `_encode` returns a [3, 2] array. -/
def wEmb : Embedder :=
  { batch := 64
    dims := 2
    _encode := fun _ => { shape := [3, 2], data := [1, 2, 3, 4, 5, 6] } }

/-- Concrete `get_next_trial`: the client state counts proposals. -/
def wGnt : Nat → (Unit × Nat) × Nat := fun c => (((), c), c + 1)

/-- Concrete `complete_trial`. -/
def wCt : Nat → Nat → Int → Nat := fun c _ _ => c + 1

/-- Concrete `_evaluate` closure that always succeeds. -/
def wEv : Unit → Except EvalError State :=
  fun _ =>
    .ok { query := [0, 0]
          result := { query := [0, 0], vectors := [], distances := [], indices := [] }
          evaluation := 0 }

/-- Concrete `_evaluate` closure whose scoring function always raises. -/
def wEvBad : Unit → Except EvalError State := fun _ => .error { msg := "score failed" }

/-- Concrete optimizer state mid-run, used to exercise a scoring failure. -/
def wOpt : AxServiceOptimizer Nat Unit :=
  { _ax_client := 0, _remaining_steps := { count := 5 }, _evaluate := wEvBad }

/- ========================= Helper lemmas ========================= -/

/-- Updating only the metric-specific routine leaves `in_range` unchanged. -/
theorem in_range_update (idx : Index) (f : List Int → Int → InternalSearchResult)
    (q : List Int) : Index.in_range { idx with _search := f } q = idx.in_range q := rfl

/-- `List.all` over a zip, restated coordinatewise with `getD`. -/
theorem zip_all_getD_iff (p : Int × Int → Bool) :
    ∀ (a b : List Int), a.length = b.length →
      (((a.zip b).all p) = true ↔
        ∀ i, i < a.length → p (a.getD i 0, b.getD i 0) = true) := by
  intro a
  induction a with
  | nil => intro b h; simp
  | cons x xs ih =>
    intro b h
    cases b with
    | nil => simp at h
    | cons y ys =>
      simp only [List.zip_cons_cons, List.all_cons, Bool.and_eq_true]
      rw [ih ys (by simpa using h)]
      constructor
      · rintro ⟨hx, hall⟩ i hi
        cases i with
        | zero => simpa using hx
        | succ j => simpa using hall j (by simpa using hi)
      · intro hall
        refine ⟨by simpa using hall 0 (by simp), ?_⟩
        intro j hj
        simpa using hall (j + 1) (by simpa using hj)

/-- `in_range` is the coordinatewise inclusive bound check. -/
theorem in_range_iff_getD (idx : Index) (q : List Int)
    (hq : q.length = idx.dims) (hb : idx.bounds.length = idx.dims) :
    (idx.in_range q = true ↔
      ∀ i, i < idx.dims →
        idx.lower.getD i 0 ≤ q.getD i 0 ∧ q.getD i 0 ≤ idx.upper.getD i 0) := by
  have hlow : idx.lower.length = idx.dims := by simp [Index.lower, hb]
  have hup : idx.upper.length = idx.dims := by simp [Index.upper, hb]
  unfold Index.in_range
  rw [Bool.and_eq_true]
  rw [zip_all_getD_iff (fun p => decide (p.2 ≤ p.1)) q idx.lower (by omega)]
  rw [zip_all_getD_iff (fun p => decide (p.1 ≤ p.2)) q idx.upper (by omega)]
  constructor
  · rintro ⟨h1, h2⟩ i hi
    exact ⟨by simpa using h1 i (by omega), by simpa using h2 i (by omega)⟩
  · intro h
    constructor
    · intro i hi
      simpa using (h i (by omega)).1
    · intro i hi
      simpa using (h i (by omega)).2

/- ========================= Claim theorems ========================= -/

/-- C1: `Index.search` validates in this fixed order — 1-dimensionality
(shape error), then length against `dims` (dimension-mismatch error), then
coordinates within `[lower, upper]` (out-of-bounds error), then `k >= 1`
(invalid-argument error); the metric-specific `_search` is invoked only when
all four checks pass (each error branch is independent of the `_search`
routine), and with several failing checks the earliest one's error is
raised. -/
theorem search_validates_in_order (idx : Index) (q : Query) (k : Int) :
    (q.ndim ≠ 1 →
      ∀ f, Index.search { idx with _search := f } q k
        = .error (.shapeError q.ndim)) ∧
    (q.ndim = 1 → q.vec.length ≠ idx.dims →
      ∀ f, Index.search { idx with _search := f } q k
        = .error (.dimError idx.dims q.vec.length)) ∧
    (q.ndim = 1 → q.vec.length = idx.dims → idx.in_range q.vec = false →
      ∀ f, Index.search { idx with _search := f } q k = .error .boundsError) ∧
    (q.ndim = 1 → q.vec.length = idx.dims → idx.in_range q.vec = true → k < 1 →
      ∀ f, Index.search { idx with _search := f } q k = .error (.kError k)) ∧
    (q.ndim = 1 → q.vec.length = idx.dims → idx.in_range q.vec = true → 1 ≤ k →
      Index.search idx q k
        = .ok { query := q.vec
                vectors :=
                  (idx._search q.vec k).indices.map fun i => idx.embeddings.getD i []
                distances := (idx._search q.vec k).distances
                indices := (idx._search q.vec k).indices }) := by
  refine ⟨?_, ?_, ?_, ?_, ?_⟩
  · intro h1 f
    simp [Index.search, h1]
  · intro h1 h2 f
    simp [Index.search, h1, h2]
  · intro h1 h2 h3 f
    simp [Index.search, h1, h2, in_range_update, h3]
  · intro h1 h2 h3 h4 f
    simp [Index.search, h1, h2, in_range_update, h3, h4]
  · intro h1 h2 h3 h4
    simp [Index.search, h1, h2, h3]
    omega

/-- Witness for C1 at a rank-2 query: the shape error is raised. -/
theorem search_validates_in_order_witness :
    (2 ≠ 1) ∧
    Index.search { exIdx with _search := exRoutine } { ndim := 2, vec := [0, 0] } 1
      = .error (.shapeError 2) :=
  ⟨by decide,
   (search_validates_in_order exIdx { ndim := 2, vec := [0, 0] } 1).1 (by decide)
     exRoutine⟩

/-- C4: for every 1-dimensional query of length `dims` with a coordinate out
of `[lower, upper]`, `search` raises the bounds error — whose message names
the accessors `index.lower` and `index.upper` — and `_search` is never
invoked (the outcome is the same for every `_search` routine). -/
theorem search_bounds_error_spec (idx : Index) (q : Query) (k : Int)
    (h1 : q.ndim = 1) (h2 : q.vec.length = idx.dims)
    (h3 : idx.in_range q.vec = false) :
    (∀ f, Index.search { idx with _search := f } q k = .error .boundsError) ∧
    (∃ a b : String, SearchError.boundsError.message = a ++ "index.lower" ++ b) ∧
    (∃ a b : String, SearchError.boundsError.message = a ++ "index.upper" ++ b) := by
  refine ⟨?_, ?_, ?_⟩
  · intro f
    simp [Index.search, h1, h2, in_range_update, h3]
  · exact ⟨"Query is out of bounds. Call ", " and index.upper for the boundary.",
      by decide⟩
  · exact ⟨"Query is out of bounds. Call index.lower and ", " for the boundary.",
      by decide⟩

/-- Witness for C4: the spec's out-of-bounds query [2, 2] against bounds
[[0, 1], [0, 1]]. -/
theorem search_bounds_error_spec_witness :
    (Index.in_range exIdx [2, 2] = false) ∧
    ∀ f, Index.search { exIdx with _search := f } { ndim := 1, vec := [2, 2] } 1
      = .error .boundsError :=
  ⟨by decide,
   (search_bounds_error_spec exIdx { ndim := 1, vec := [2, 2] } 1 rfl rfl
     (by decide)).1⟩

/-- C5 counterexample: with a rank-2 query and `k = 0`, `search` raises the
shape error, not the invalid-argument error about `k` — `k` is checked last,
not first. -/
theorem search_k_first_counterexample :
    Index.search exIdx { ndim := 2, vec := [0, 0] } 0 = .error (.shapeError 2) ∧
    Index.search exIdx { ndim := 2, vec := [0, 0] } 0 ≠ .error (.kError 0) := by
  refine ⟨rfl, ?_⟩
  intro h
  injection h with h2
  exact SearchError.noConfusion h2

/-- C5 amended: for all `k < 1` and every query that passes the shape,
dimension, and bounds checks, `search` raises the invalid-argument error
about `k` without invoking `_search`; a query failing an earlier check gets
that earlier error instead, because the order is shape → dimension → bounds
→ k with k checked last. -/
theorem search_k_error_on_valid_query (idx : Index) (q : Query) (k : Int)
    (h1 : q.ndim = 1) (h2 : q.vec.length = idx.dims)
    (h3 : idx.in_range q.vec = true) (h4 : k < 1) :
    ∀ f, Index.search { idx with _search := f } q k = .error (.kError k) := by
  intro f
  simp [Index.search, h1, h2, in_range_update, h3, h4]

/-- Witness for the amended C5: in-bounds query [0, 0], `k = 0`. -/
theorem search_k_error_on_valid_query_witness :
    (Index.in_range exIdx [0, 0] = true) ∧ ((0 : Int) < 1) ∧
    Index.search { exIdx with _search := exRoutine } { ndim := 1, vec := [0, 0] } 0
      = .error (.kError 0) :=
  ⟨by decide, by decide,
   search_k_error_on_valid_query exIdx { ndim := 1, vec := [0, 0] } 0 rfl rfl
     (by decide) (by decide) exRoutine⟩

/-- C6: on a validated query, the wrapper returns the indices and distances
of the metric-specific routine unchanged, sets `query` to the input query,
and computes `vectors` itself by gathering `embeddings[indices]` — for every
`_search` routine `f`, whatever indices `f` returns are gathered from the
embedding matrix by the wrapper. -/
theorem search_gathers_in_wrapper (idx : Index) (q : Query) (k : Int)
    (f : List Int → Int → InternalSearchResult)
    (h1 : q.ndim = 1) (h2 : q.vec.length = idx.dims)
    (h3 : idx.in_range q.vec = true) (h4 : 1 ≤ k) :
    Index.search { idx with _search := f } q k
      = .ok { query := q.vec
              vectors := (f q.vec k).indices.map fun i => idx.embeddings.getD i []
              distances := (f q.vec k).distances
              indices := (f q.vec k).indices } := by
  simp [Index.search, h1, h2, in_range_update, h3]
  omega

/-- Witness for C6: validated query [0, 0], `k = 1`, routine `exRoutine`. -/
theorem search_gathers_in_wrapper_witness :
    (Index.in_range exIdx [0, 0] = true) ∧ ((1 : Int) ≤ 1) ∧
    Index.search { exIdx with _search := exRoutine } { ndim := 1, vec := [0, 0] } 1
      = .ok { query := [0, 0]
              vectors := (exRoutine [0, 0] 1).indices.map
                fun i => exIdx.embeddings.getD i []
              distances := (exRoutine [0, 0] 1).distances
              indices := (exRoutine [0, 0] 1).indices } :=
  ⟨by decide, by decide,
   search_gathers_in_wrapper exIdx { ndim := 1, vec := [0, 0] } 1 exRoutine rfl rfl
     (by decide) (by decide)⟩

/-- C8: for a 1-dimensional query of length `dims` (with the documented
[dims, 2] bounds shape), `in_range` holds iff every coordinate satisfies
`lower[i] <= query[i] <= upper[i]`, both endpoints inclusive; consequently a
query equal to the upper bound on every coordinate is in range whenever the
bounds invariant `lower <= upper` holds, and on the spec's example index
`search([1,1], k=1)` succeeds while `search([2,2], k=1)` raises the bounds
error. -/
theorem in_range_inclusive_bounds (idx : Index) (q : List Int)
    (hq : q.length = idx.dims) (hb : idx.bounds.length = idx.dims) :
    (idx.in_range q = true ↔
      ∀ i, i < idx.dims →
        idx.lower.getD i 0 ≤ q.getD i 0 ∧ q.getD i 0 ≤ idx.upper.getD i 0) ∧
    ((∀ i, i < idx.dims → idx.lower.getD i 0 ≤ idx.upper.getD i 0) →
      idx.in_range idx.upper = true) ∧
    (Index.search exIdx { ndim := 1, vec := [1, 1] } 1).isOk = true ∧
    Index.search exIdx { ndim := 1, vec := [2, 2] } 1 = .error .boundsError := by
  refine ⟨in_range_iff_getD idx q hq hb, ?_, by decide, rfl⟩
  intro h
  rw [in_range_iff_getD idx idx.upper (by simp [Index.upper, hb]) hb]
  intro i hi
  exact ⟨h i hi, le_refl _⟩

/-- Witness for C8 at the spec example: query [1, 1] on bounds [[0,1],[0,1]]
is exactly the upper bound and is in range. -/
theorem in_range_inclusive_bounds_witness :
    (Index.in_range exIdx [1, 1] = true ↔
      ∀ i, i < exIdx.dims →
        exIdx.lower.getD i 0 ≤ [(1 : Int), 1].getD i 0 ∧
        [(1 : Int), 1].getD i 0 ≤ exIdx.upper.getD i 0) ∧
    Index.in_range exIdx [1, 1] = true :=
  ⟨(in_range_inclusive_bounds exIdx [1, 1] rfl rfl).1, by decide⟩

/-- C3: `_terminate_step` returns the sum of the steps' `num_trials` when
all are non-negative, and `-1` (unbounded) when any is negative; in
particular [5, 10, -1] yields -1 and [5, 10, 15] yields 30. -/
theorem terminate_step_budget (steps : List GenerationStep) :
    ((∀ s ∈ steps, 0 ≤ s.num_trials) →
      AxServiceOptimizer._terminate_step steps
        = (steps.map fun s => s.num_trials).sum) ∧
    ((∃ s ∈ steps, s.num_trials < 0) →
      AxServiceOptimizer._terminate_step steps = -1) ∧
    AxServiceOptimizer._terminate_step
      [{ model := "sobol", num_trials := 5 }, { model := "gpei", num_trials := 10 },
       { model := "gpei", num_trials := -1 }] = -1 ∧
    AxServiceOptimizer._terminate_step wSteps = 30 := by
  refine ⟨?_, ?_, by decide, by decide⟩
  · intro h
    have hc : ((steps.map fun step => step.num_trials).all
        fun t => decide (0 ≤ t)) = true := by
      simp only [List.all_eq_true, List.mem_map, decide_eq_true_eq]
      rintro t ⟨s, hs, rfl⟩
      exact h s hs
    simp [AxServiceOptimizer._terminate_step, hc]
  · rintro ⟨s, hs, hneg⟩
    have hc : ((steps.map fun step => step.num_trials).all
        fun t => decide (0 ≤ t)) = false := by
      simp only [List.all_eq_false, List.mem_map, decide_eq_true_eq]
      exact ⟨s.num_trials, ⟨s, hs, rfl⟩, by omega⟩
    simp [AxServiceOptimizer._terminate_step, hc]

/-- Witness for C3: the all-non-negative branch at [5, 10, 15]. -/
theorem terminate_step_budget_witness :
    (∀ s ∈ wSteps, 0 ≤ s.num_trials) ∧
    AxServiceOptimizer._terminate_step wSteps
      = (wSteps.map fun s => s.num_trials).sum :=
  ⟨by decide, (terminate_step_budget wSteps).1 (by decide)⟩

/-- A `step()` call with a counter that is neither exhausted nor the
unbounded sentinel, and an `_evaluate` that does not raise, succeeds,
decrements the counter by one, and leaves the `_evaluate` closure alone. -/
theorem step_advances {C P : Type} (gnt : C → (P × Nat) × C)
    (ct : C → Nat → Int → C) (o : AxServiceOptimizer C P)
    (hev : ∀ p, (o._evaluate p).isOk = true)
    (h0 : o._remaining_steps.count ≠ 0) (h1 : o._remaining_steps.count ≠ -1) :
    ((AxServiceOptimizer.step gnt ct o).2.isOk = true) ∧
    ((AxServiceOptimizer.step gnt ct o).1._remaining_steps.count
      = o._remaining_steps.count - 1) ∧
    ((AxServiceOptimizer.step gnt ct o).1._evaluate = o._evaluate) := by
  have hs : o._remaining_steps.step
      = some { count := o._remaining_steps.count - 1 } := by
    simp [RemainingSteps.step, RemainingSteps.done, h0, h1]
  unfold AxServiceOptimizer.step
  rw [hs]
  cases hev2 : o._evaluate (gnt o._ax_client).1.1 with
  | error e =>
    have := hev (gnt o._ax_client).1.1
    rw [hev2] at this
    simp [Except.isOk, Except.toBool] at this
  | ok st => simp [hev2, Except.isOk, Except.toBool]

/-- C2: an optimizer built from a 1-step schedule with `num_trials = 3` has
a budget of 3: it is not terminated at construction, three `step()` calls
succeed (for any external client behavior and non-raising scoring), after
which `terminate` is true; a fourth call raises the termination violation
and returns the state unchanged — in particular the external strategy's
client state is untouched, no trial being proposed or completed. -/
theorem optimizer_terminates_after_three_steps {C P : Type}
    (client : C) (gnt : C → (P × Nat) × C) (ct : C → Nat → Int → C)
    (ev : P → Except EvalError State) (m : String)
    (hev : ∀ p, (ev p).isOk = true) :
    let o0 : AxServiceOptimizer C P :=
      AxServiceOptimizer.init [{ model := m, num_trials := 3 }] client ev
    let s1 := AxServiceOptimizer.step gnt ct o0
    let s2 := AxServiceOptimizer.step gnt ct s1.1
    let s3 := AxServiceOptimizer.step gnt ct s2.1
    o0.terminate = false ∧
    s1.2.isOk = true ∧ s2.2.isOk = true ∧ s3.2.isOk = true ∧
    s3.1.terminate = true ∧
    AxServiceOptimizer.step gnt ct s3.1 = (s3.1, .error .terminated) := by
  intro o0 s1 s2 s3
  have h0c : o0._remaining_steps.count = 3 := rfl
  have A1 := step_advances gnt ct o0 hev
    (by rw [h0c]; decide) (by rw [h0c]; decide)
  have h1c : (AxServiceOptimizer.step gnt ct o0).1._remaining_steps.count = 2 := by
    rw [A1.2.1, h0c]
    decide
  have hev1 : ∀ p, ((AxServiceOptimizer.step gnt ct o0).1._evaluate p).isOk
      = true := by
    rw [A1.2.2]; exact hev
  have A2 := step_advances gnt ct (AxServiceOptimizer.step gnt ct o0).1 hev1
    (by rw [h1c]; decide) (by rw [h1c]; decide)
  have h2c :
      (AxServiceOptimizer.step gnt ct
        (AxServiceOptimizer.step gnt ct o0).1).1._remaining_steps.count = 1 := by
    rw [A2.2.1, h1c]
    decide
  have hev2 : ∀ p,
      ((AxServiceOptimizer.step gnt ct
        (AxServiceOptimizer.step gnt ct o0).1).1._evaluate p).isOk = true := by
    rw [A2.2.2]; exact hev1
  have A3 := step_advances gnt ct
    (AxServiceOptimizer.step gnt ct (AxServiceOptimizer.step gnt ct o0).1).1 hev2
    (by rw [h2c]; decide) (by rw [h2c]; decide)
  have h3c :
      (AxServiceOptimizer.step gnt ct (AxServiceOptimizer.step gnt ct
        (AxServiceOptimizer.step gnt ct o0).1).1).1._remaining_steps.count
        = 0 := by
    rw [A3.2.1, h2c]
    decide
  have hdone : s3.1._remaining_steps.done = true := by
    show decide (s3.1._remaining_steps.count = 0) = true
    rw [show s3.1._remaining_steps.count = 0 from h3c]
    decide
  have hnone : s3.1._remaining_steps.step = none := by
    simp [RemainingSteps.step, hdone]
  refine ⟨rfl, A1.1, A2.1, A3.1, hdone, ?_⟩
  unfold AxServiceOptimizer.step
  rw [hnone]

/-- Witness for C2: a concrete counting client, three successful steps,
then the termination violation. -/
theorem optimizer_terminates_after_three_steps_witness :
    (∀ p, (wEv p).isOk = true) ∧
    (let o0 : AxServiceOptimizer Nat Unit :=
      AxServiceOptimizer.init [{ model := "sobol", num_trials := 3 }] 0 wEv
    let s1 := AxServiceOptimizer.step wGnt wCt o0
    let s2 := AxServiceOptimizer.step wGnt wCt s1.1
    let s3 := AxServiceOptimizer.step wGnt wCt s2.1
    o0.terminate = false ∧
    s1.2.isOk = true ∧ s2.2.isOk = true ∧ s3.2.isOk = true ∧
    s3.1.terminate = true ∧
    AxServiceOptimizer.step wGnt wCt s3.1 = (s3.1, .error .terminated)) :=
  ⟨fun _ => rfl,
   optimizer_terminates_after_three_steps 0 wGnt wCt wEv "sobol" (fun _ => rfl)⟩

/-- C7: when the counter is not exhausted and `_evaluate` raises (the
caller-supplied scoring function raising), the exception propagates out of
`step()` as-is, the counter has already been advanced (`RemainingSteps.step`
applied), the client state is the one right after the trial was proposed,
and `complete_trial` is never invoked — the outcome is identical for every
`complete_trial` function. -/
theorem step_scoring_failure {C P : Type} (gnt : C → (P × Nat) × C)
    (o : AxServiceOptimizer C P) (e : EvalError)
    (h0 : o._remaining_steps.done = false)
    (he : o._evaluate (gnt o._ax_client).1.1 = .error e) :
    (o._remaining_steps.step).isSome = true ∧
    ∀ ct : C → Nat → Int → C,
      AxServiceOptimizer.step gnt ct o =
        ({ o with
            _remaining_steps := (o._remaining_steps.step).getD o._remaining_steps
            _ax_client := (gnt o._ax_client).2 },
         .error (.scoring e)) := by
  have hsome : ∃ r, o._remaining_steps.step = some r := by
    unfold RemainingSteps.step
    rw [h0]
    simp only [Bool.false_eq_true, if_false]
    by_cases hc : o._remaining_steps.count = -1
    · exact ⟨o._remaining_steps, by simp [hc]⟩
    · exact ⟨{ count := o._remaining_steps.count - 1 }, by simp [hc]⟩
  obtain ⟨r, hr⟩ := hsome
  refine ⟨by rw [hr]; rfl, ?_⟩
  intro ct
  unfold AxServiceOptimizer.step
  rw [hr]
  simp [he]

/-- Witness for C7: a mid-run optimizer whose scoring function raises. -/
theorem step_scoring_failure_witness :
    (wOpt._remaining_steps.done = false) ∧
    (wOpt._evaluate (wGnt wOpt._ax_client).1.1 = .error { msg := "score failed" }) ∧
    ((wOpt._remaining_steps.step).isSome = true ∧
      ∀ ct : Nat → Nat → Int → Nat,
        AxServiceOptimizer.step wGnt ct wOpt =
          ({ wOpt with
              _remaining_steps := (wOpt._remaining_steps.step).getD wOpt._remaining_steps
              _ax_client := (wGnt wOpt._ax_client).2 },
           .error (.scoring { msg := "score failed" }))) :=
  ⟨rfl, rfl, step_scoring_failure wGnt wOpt { msg := "score failed" } rfl rfl⟩

/-- C9 counterexample: the dispatch also accepts the alias "cv" — a kind
string outside the claimed six-element set — and selects the
cross-validation routine instead of failing. -/
theorem render_cv_counterexample :
    AxServiceOptimizer.render "cv" = .ok .cross_validate ∧
    "cv" ∉ ["interactive", "static", "tradeoff", "cross_validate", "slice",
            "tile"] := by
  exact ⟨rfl, by decide⟩

/-- C9 amended: `render` dispatches by name exactly over "interactive",
"static", "tradeoff", "cross_validate" (also accepted under the alias "cv"),
"slice" and "tile"; for every other kind string it raises the fatal
configuration error at dispatch time, before any routine is selected. -/
theorem render_dispatch_set (kind : String) :
    AxServiceOptimizer.render kind = .error .notSupported ↔
      kind ∉ ["interactive", "static", "tradeoff", "cross_validate", "cv",
              "slice", "tile"] := by
  constructor
  · intro h hmem
    simp only [List.mem_cons, List.not_mem_nil, or_false] at hmem
    rcases hmem with rfl | rfl | rfl | rfl | rfl | rfl | rfl
    · exact Except.noConfusion
        (show (Except.ok RenderRoutine.interactive : Except RenderError RenderRoutine)
          = .error .notSupported from h)
    · exact Except.noConfusion
        (show (Except.ok RenderRoutine.static : Except RenderError RenderRoutine)
          = .error .notSupported from h)
    · exact Except.noConfusion
        (show (Except.ok RenderRoutine.tradeoff : Except RenderError RenderRoutine)
          = .error .notSupported from h)
    · exact Except.noConfusion
        (show (Except.ok RenderRoutine.cross_validate : Except RenderError RenderRoutine)
          = .error .notSupported from h)
    · exact Except.noConfusion
        (show (Except.ok RenderRoutine.cross_validate : Except RenderError RenderRoutine)
          = .error .notSupported from h)
    · exact Except.noConfusion
        (show (Except.ok RenderRoutine.slice : Except RenderError RenderRoutine)
          = .error .notSupported from h)
    · exact Except.noConfusion
        (show (Except.ok RenderRoutine.tile : Except RenderError RenderRoutine)
          = .error .notSupported from h)
  · intro h
    simp only [List.mem_cons, List.not_mem_nil, or_false, not_or] at h
    obtain ⟨h1, h2, h3, h4, h5, h6, h7⟩ := h
    simp [AxServiceOptimizer.render, h1, h2, h3, h4, h5, h6, h7]

/-- Witness for the amended C9 at the unknown kind "contour". -/
theorem render_dispatch_set_witness :
    AxServiceOptimizer.render "contour" = .error .notSupported :=
  (render_dispatch_set "contour").mpr (by decide)

/-- C10: the `encode` wrapper returns the `_encode` output unchanged when
its last dimension equals `dims`, and raises the `ValueError` naming the
expected and actual dimension otherwise; only the last axis is checked, so
an array of any rank whose last dimension is `dims` passes. -/
theorem encode_checks_last_dim (e : Embedder) (text : List String) :
    (∀ d, (e._encode text).shape.getLast? = some d →
      ((d = e.dims → Embedder.encode e text = .ok (e._encode text)) ∧
       (d ≠ e.dims → Embedder.encode e text = .error (.dimMismatch e.dims d)))) ∧
    (∀ (pre : List Nat) (dat : List Int) (t2 : List String),
      Embedder.encode
        { e with _encode := fun _ => { shape := pre ++ [e.dims], data := dat } } t2
        = .ok { shape := pre ++ [e.dims], data := dat }) := by
  constructor
  · intro d hd
    constructor
    · intro hdim
      simp [Embedder.encode, hd, hdim]
    · intro hdim
      simp [Embedder.encode, hd, hdim]
  · intro pre dat t2
    simp [Embedder.encode, List.getLast?_append_cons]

/-- Witness for C10: a rank-2 [3, 2] array against `dims = 2` passes. -/
theorem encode_checks_last_dim_witness :
    ((wEmb._encode []).shape.getLast? = some 2) ∧ ((2 : Nat) = wEmb.dims) ∧
    Embedder.encode wEmb [] = .ok (wEmb._encode []) :=
  ⟨rfl, rfl, ((encode_checks_last_dim wEmb []).1 2 rfl).1 rfl⟩
